import Mathlib

/-!
A shallow embedding of `toshieth/manager.py` (the transaction-queue manager of
the toshi Ethereum service): the `update_transaction` subroutine and the
`_process_transaction_queue` processing pass, together with theorems checking
the specification's claims about them.

Database rows are modelled as a list of `Txn` records; the SQL queries of the
source are modelled as filters and sorts over that list; Ethereum-node calls
and the transaction codec are abstracted as environment functions; the side
effects of a call (row updates, notification dispatches, task-bus dispatches)
are collected in an explicit effect list in execution order.
-/

/-- Transaction status values stored in the `status` column.
SQL `NULL` is modelled as `Option.none` around this type. -/
inductive Status
  | queued
  | unconfirmed
  | confirmed
  | error
deriving Repr, DecidableEq

/-- A row of the `transactions` table.  The numeric columns `nonce`, `value`,
`gas`, `gas_price` are integers (the source applies `parse_int` to them);
`status` is `none` for SQL `NULL`; `blocknumber` is populated for confirmed
rows; `r` (with `v`, `s`) carries the signature, `r ≠ none` marking a signed
row eligible for processing. -/
structure Txn where
  transaction_id : Nat
  hash : String
  from_address : String
  to_address : String
  nonce : Int
  value : Int
  gas : Int
  gas_price : Int
  data : Option String
  v : Option Int
  r : Option Int
  s : Option Int
  status : Option Status
  blocknumber : Option Int
deriving Repr, DecidableEq

/-- The payment message rendered by `SofaPayment(...).render()` in
`update_transaction`. -/
structure SofaPayment where
  value : Int
  txHash : String
  status : Status
  fromAddress : String
  toAddress : String
  networkId : Int
deriving Repr, DecidableEq

/-- Observable side effects of the manager: the two forms of `UPDATE` issued
by `update_transaction` (with and without a `blocknumber` assignment), a
`send_notification` task dispatch, and a `process_transaction_queue` task
dispatch. -/
inductive Effect
  | dbUpdateStatus (txId : Nat) (st : Status)
  | dbUpdateStatusBlock (txId : Nat) (st : Status) (bn : Option Int)
  | notify (addr : String) (msg : SofaPayment)
  | processQueue (addr : String)
deriving Repr, DecidableEq

/-- The `block` argument of `eth_getBalance` / `eth_getTransactionCount`:
either a concrete block number or the literal string `"latest"`. -/
inductive BlockRef
  | latest
  | number (n : Int)
deriving Repr, DecidableEq

/-- A Python exception raised by the modelled code.  `typeError` models the
`TypeError` raised by an `int > None` comparison. -/
inductive PyErr
  | typeError
deriving Repr, DecidableEq

/-- Environment of `update_transaction`: the node lookup used for the
`confirmed` transition (`parse_int` of the `blockNumber` field of
`eth_getTransactionByHash`), and the configured network id. -/
structure UEnv where
  ethTxBlockNumber : String → Option Int
  networkId : Int

/-- Model of `SELECT * FROM transactions WHERE transaction_id = $1`
(`fetchrow` returns the first matching row or `NULL`). -/
def findTx : List Txn → Nat → Option Txn
  | [], _ => none
  | t :: ts, txId =>
    if t.transaction_id = txId then some t else findTx ts txId

/-- Model of `UPDATE transactions SET status = $1, updated = ... WHERE
transaction_id = $2` (timestamps are not modelled). -/
def setTxStatus : List Txn → Nat → Status → List Txn
  | [], _, _ => []
  | t :: ts, txId, st =>
    (if t.transaction_id = txId then { t with status := some st } else t)
      :: setTxStatus ts txId st

/-- Model of `UPDATE transactions SET status = $1, blocknumber = $2,
updated = ... WHERE transaction_id = $3`. -/
def setTxStatusBlock : List Txn → Nat → Status → Option Int → List Txn
  | [], _, _, _ => []
  | t :: ts, txId, st, bn =>
    (if t.transaction_id = txId then
      { t with status := some st, blocknumber := bn }
     else t) :: setTxStatusBlock ts txId st bn

/-- The payment message built in `update_transaction` from the row `tx` and
the (already normalized) status. -/
def mkPayment (env : UEnv) (tx : Txn) (st : Status) : SofaPayment :=
  { value := tx.value, txHash := tx.hash, status := st,
    fromAddress := tx.from_address, toAddress := tx.to_address,
    networkId := env.networkId }

/-- Model of `TransactionQueueHandler.update_transaction`.  Returns the new
database contents and the list of effects, in order: missing row or unchanged
status is a silent return; a row already `confirmed` is a logged no-op;
otherwise the status (and, for `confirmed`, the node-reported block number)
is persisted; a `queued` transition is rendered as `unconfirmed`; a
`queued → unconfirmed` transition returns right after the write; the sender
is always notified; the recipient is notified unless the row is brand new and
the rendered status is `error`; contract creations (`to_address = "0x"`)
suppress all recipient-side effects; finally the recipient's queue
processing is dispatched. -/
def update_transaction (env : UEnv) (db : List Txn) (txId : Nat)
    (status : Status) : List Txn × List Effect :=
  match findTx db txId with
  | none => (db, [])
  | some tx =>
    if tx.status = some status then (db, [])
    else if tx.status = some Status.confirmed then (db, [])
    else
      let db2 :=
        if status = Status.confirmed then
          setTxStatusBlock db txId status (env.ethTxBlockNumber tx.hash)
        else setTxStatus db txId status
      let writeEffs :=
        if status = Status.confirmed then
          [Effect.dbUpdateStatusBlock txId status (env.ethTxBlockNumber tx.hash)]
        else [Effect.dbUpdateStatus txId status]
      if status = Status.unconfirmed ∧ tx.status = some Status.queued then
        (db2, writeEffs)
      else
        let rstatus := if status = Status.queued then Status.unconfirmed
                       else status
        let msg := mkPayment env tx rstatus
        let effs := writeEffs ++ [Effect.notify tx.from_address msg]
        if tx.to_address = "0x" then (db2, effs)
        else
          let effs :=
            match tx.status with
            | none =>
              if rstatus ≠ Status.error then
                effs ++ [Effect.notify tx.to_address msg]
              else effs
            | some _ => effs ++ [Effect.notify tx.to_address msg]
          (db2, effs ++ [Effect.processQueue tx.to_address])

/-- Default row used only as the (never-reached) default of `List.getLastD`
when indexing `unconfirmed_txs[-1]` on a non-empty list. -/
def dfltTxn : Txn :=
  { transaction_id := 0, hash := "", from_address := "", to_address := "",
    nonce := 0, value := 0, gas := 0, gas_price := 0, data := none,
    v := none, r := none, s := none, status := none, blocknumber := none }

/-- Predicate of the outbound query: `status is NULL OR status = 'queued'`. -/
def statusIsNullOrQueued : Option Status → Bool
  | none => true
  | some Status.queued => true
  | _ => false

/-- Predicate of the in-flight query: `status = 'unconfirmed' OR
(status = 'confirmed' AND blocknumber > $2)` (SQL `NULL > n` is not true). -/
def isInflight (lastBn : Int) (t : Txn) : Bool :=
  match t.status with
  | some Status.unconfirmed => true
  | some Status.confirmed =>
    match t.blocknumber with
    | some bn => lastBn < bn
    | none => false
  | _ => false

/-- Predicate of the incoming query: `status IN (NULL,'queued','unconfirmed')
OR (status = 'confirmed' AND blocknumber > $2)`. -/
def isIncomingPending (lastBn : Int) (t : Txn) : Bool :=
  match t.status with
  | none => true
  | some Status.queued => true
  | some Status.unconfirmed => true
  | some Status.confirmed =>
    match t.blocknumber with
    | some bn => lastBn < bn
    | none => false
  | some Status.error => false

/-- Ordering relation used to model `ORDER BY nonce`. -/
def nonceLE (a b : Txn) : Prop := a.nonce ≤ b.nonce

instance : DecidableRel nonceLE := fun a b => Int.decLe a.nonce b.nonce

instance : IsTotal Txn nonceLE := ⟨fun a b => Int.le_total a.nonce b.nonce⟩

instance : IsTrans Txn nonceLE := ⟨fun _ _ _ => Int.le_trans⟩

/-- Model of `ORDER BY nonce` (ascending) via a stable insertion sort. -/
def sortByNonceAsc (l : List Txn) : List Txn := l.insertionSort nonceLE

/-- Model of the outbound query of `_process_transaction_queue`:
`from_address = $1 AND (status is NULL OR status = 'queued') AND r IS NOT
NULL ORDER BY nonce DESC`. -/
def fetchOutbound (db : List Txn) (addr : String) : List Txn :=
  (sortByNonceAsc (db.filter fun t =>
    t.from_address == addr && statusIsNullOrQueued t.status
      && t.r.isSome)).reverse

/-- Model of the in-flight query of `_process_transaction_queue`
(`ORDER BY nonce` ascending). -/
def fetchInflight (db : List Txn) (addr : String) (lastBn : Int) : List Txn :=
  sortByNonceAsc (db.filter fun t =>
    t.from_address == addr && isInflight lastBn t)

/-- Model of the incoming (pending-balance) query of the park branch; the
source query has no ORDER BY, so database order is kept. -/
def fetchIncoming (db : List Txn) (addr : String) (lastBn : Int) : List Txn :=
  db.filter fun t => t.to_address == addr && isIncomingPending lastBn t

/-- Full debit cost of a row: `value + gas * gas_price`. -/
def txCost (t : Txn) : Int := t.value + t.gas * t.gas_price

/-- Sum of `value + gas * gas_price` over the in-flight rows (line 100 of the
source). -/
def inflightDebit (l : List Txn) : Int :=
  l.foldl (fun s t => s + txCost t) 0

/-- Sum of `parse_int(value) or 0` over the incoming rows (line 187). -/
def pendingSum (l : List Txn) : Int :=
  l.foldl (fun s t => s + t.value) 0

/-- Python `last_blocknumber or 0` (both `None` and `0` give `0`). -/
def orZero : Option Int → Int
  | none => 0
  | some n => n

/-- Python `last_blocknumber or "latest"`: `None` (and the falsy `0`) give
the literal `"latest"`, any other number is passed through. -/
def blockRefOf : Option Int → BlockRef
  | none => BlockRef.latest
  | some n => if n = 0 then BlockRef.latest else BlockRef.number n

/-- Model of `set.add` on `addresses_to_check` as an insertion-ordered set. -/
def addAddr (l : List String) (a : String) : List String :=
  if l.contains a then l else l ++ [a]

/-- Model of `any(t['blocknumber'] is not None and t['blocknumber'] >
last_blocknumber for t in transactions_in)` (line 196): the generator is
evaluated left to right, the conjunction short-circuits on a `NULL`
blocknumber, and comparing an `int` against `None` raises `TypeError`. -/
def anyRecentIncoming (txsIn : List Txn) (lastBn : Option Int) :
    Except PyErr Bool :=
  match txsIn with
  | [] => .ok false
  | t :: rest =>
    match t.blocknumber with
    | none => anyRecentIncoming rest lastBn
    | some bn =>
      match lastBn with
      | none => .error PyErr.typeError
      | some l => if l < bn then .ok true else anyRecentIncoming rest lastBn

/-- Environment of a processing pass: the singleton `last_blocknumber` row,
the Ethereum-node reads, and the transaction codec / broadcast outcome
(outside collaborators, abstracted as pure functions).  `recoverSender`
models `data_encoder(create_transaction(...).sender)` and `sendRawFails`
models `eth_sendRawTransaction` raising `JsonRPCError`. -/
structure PEnv where
  uenv : UEnv
  lastBlocknumber : Option Int
  getBalance : String → BlockRef → Int
  getTransactionCount : String → BlockRef → Int
  recoverSender : Txn → String
  sendRawFails : Txn → Bool

/-- Mutable state of the scheduling loop of `_process_transaction_queue`. -/
structure LoopSt where
  db : List Txn
  effects : List Effect
  balance : Int
  nonce : Int
  previousError : Bool
  addressesToCheck : List String
deriving Repr

/-- Model of the park-branch drain loop (lines 204..208): `while transaction:`
pops every remaining outbound row, sending a `queued` update for rows whose
snapshot status is `NULL`; the Python list is empty afterwards. -/
def drainQueuedRows (env : UEnv) (db : List Txn) (effs : List Effect) :
    List Txn → List Txn × List Effect
  | [] => (db, effs)
  | tx :: rest =>
    match tx.status with
    | none =>
      let u := update_transaction env db tx.transaction_id Status.queued
      drainQueuedRows env u.1 (effs ++ u.2) rest
    | some _ => drainQueuedRows env db effs rest

/-- One step of the error cascade: transition the row to `'error'` and record
its recipient in `addresses_to_check`. -/
def cascadeStep (env : PEnv) (st : LoopSt) (tx : Txn) : LoopSt :=
  let u := update_transaction env.uenv st.db tx.transaction_id Status.error
  { st with db := u.1, effects := st.effects ++ u.2,
            previousError := true,
            addressesToCheck := addAddr st.addressesToCheck tx.to_address }

/-- Model of the `while transactions_out:` loop (lines 110..208).  The source
pops from the tail of a nonce-descending list, so the loop argument here is
that list reversed (ascending nonce), consumed head first.  Returns the final
loop state and the remaining content of `transactions_out` (empty on normal
exhaustion; the park branch drains the list before breaking). -/
def runQueueLoop (env : PEnv) (addr : String) :
    List Txn → LoopSt → Except PyErr (LoopSt × List Txn)
  | [], st => .ok (st, [])
  | tx :: rest, st =>
    if st.previousError then
      runQueueLoop env addr rest (cascadeStep env st tx)
    else if tx.nonce ≠ st.nonce then
      runQueueLoop env addr rest (cascadeStep env st tx)
    else
      let cost := txCost tx
      if cost ≤ st.balance then
        if env.recoverSender tx ≠ addr then
          runQueueLoop env addr rest (cascadeStep env st tx)
        else if env.sendRawFails tx then
          runQueueLoop env addr rest (cascadeStep env st tx)
        else
          let u := update_transaction env.uenv st.db tx.transaction_id
                     Status.unconfirmed
          runQueueLoop env addr rest
            { st with db := u.1, effects := st.effects ++ u.2,
                      balance := st.balance - cost, nonce := st.nonce + 1 }
      else
        let txsIn := fetchIncoming st.db addr (orZero env.lastBlocknumber)
        if st.balance + pendingSum txsIn < cost then
          runQueueLoop env addr rest (cascadeStep env st tx)
        else
          match anyRecentIncoming txsIn env.lastBlocknumber with
          | .error e => .error e
          | .ok recent =>
            let st2 :=
              if recent then
                { st with addressesToCheck := addAddr st.addressesToCheck addr }
              else st
            let d := drainQueuedRows env.uenv st2.db st2.effects (tx :: rest)
            .ok ({ st2 with db := d.1, effects := d.2 }, [])

/-- Initial nonce / working-balance computation of a pass (lines 86..103):
the network balance is read at `last_blocknumber or "latest"`; if the
in-flight set is non-empty the nonce is its last (highest) nonce plus one and
the in-flight debits are subtracted, otherwise the nonce comes from
`eth_getTransactionCount`. -/
def initialAccounting (env : PEnv) (db : List Txn) (addr : String) :
    Int × Int :=
  let bref := blockRefOf env.lastBlocknumber
  let netBalance := env.getBalance addr bref
  let inflight := fetchInflight db addr (orZero env.lastBlocknumber)
  if inflight.isEmpty then
    (env.getTransactionCount addr bref, netBalance)
  else
    ((inflight.getLastD dfltTxn).nonce + 1, netBalance - inflightDebit inflight)

/-- Result of a processing pass: the new database contents, the effects in
order, the final `addresses_to_check` set, and the remaining content of
`transactions_out` at the end of the loop. -/
structure PassResult where
  db : List Txn
  effects : List Effect
  addressesToCheck : List String
  remaining : List Txn
deriving Repr

/-- Model of `TransactionQueueHandler._process_transaction_queue`: fetch the
outbound rows, compute the initial accounting, run the scheduling loop, then
dispatch `process_transaction_queue` for every recorded address other than
the contract-creation sentinel, and for the processed address itself when
`transactions_out` is non-empty at the end (lines 210..216). -/
def processPass (env : PEnv) (db : List Txn) (addr : String) :
    Except PyErr PassResult :=
  if (fetchOutbound db addr).isEmpty then
    .ok { db := db, effects := [], addressesToCheck := [],
          remaining := fetchOutbound db addr }
  else
    match runQueueLoop env addr (fetchOutbound db addr).reverse
        { db := db, effects := [],
          balance := (initialAccounting env db addr).2,
          nonce := (initialAccounting env db addr).1,
          previousError := false, addressesToCheck := [] } with
    | .error e => .error e
    | .ok (st, remaining) =>
      .ok { db := st.db,
            effects := st.effects
              ++ (st.addressesToCheck.filter fun a => !(a == "0x")).map
                  Effect.processQueue
              ++ (if remaining.isEmpty then []
                  else [Effect.processQueue addr]),
            addressesToCheck := st.addressesToCheck,
            remaining := remaining }

/-- Effects of a pass outcome, empty when the pass raised. -/
def passEffects (x : Except PyErr PassResult) : List Effect :=
  match x with
  | .ok res => res.effects
  | .error _ => []

/-- Boolean view of whether a pass outcome raised. -/
def exceptIsOk (x : Except PyErr PassResult) : Bool :=
  match x with
  | .ok _ => true
  | .error _ => false

/-- Characterization of `statusIsNullOrQueued`. -/
theorem statusIsNullOrQueued_iff (s : Option Status) :
    statusIsNullOrQueued s = true ↔ s = none ∨ s = some Status.queued := by
  cases s with
  | none => simp [statusIsNullOrQueued]
  | some st => cases st <;> simp [statusIsNullOrQueued]

/-- A status update for one id leaves lookups of other ids unchanged. -/
theorem findTx_setTxStatus_ne (db : List Txn) (i j : Nat) (s : Status)
    (h : j ≠ i) : findTx (setTxStatus db i s) j = findTx db j := by
  have hij : ¬ (i = j) := fun hc => h hc.symm
  induction db with
  | nil => rfl
  | cons t ts ih =>
    by_cases hti : t.transaction_id = i
    · simp [setTxStatus, findTx, hti, hij, ih]
    · by_cases htj : t.transaction_id = j
      · simp [setTxStatus, findTx, hti, htj, h]
      · simp [setTxStatus, findTx, hti, htj, ih]

/-- A status-and-blocknumber update for one id leaves lookups of other ids
unchanged. -/
theorem findTx_setTxStatusBlock_ne (db : List Txn) (i j : Nat) (s : Status)
    (bn : Option Int) (h : j ≠ i) :
    findTx (setTxStatusBlock db i s bn) j = findTx db j := by
  have hij : ¬ (i = j) := fun hc => h hc.symm
  induction db with
  | nil => rfl
  | cons t ts ih =>
    by_cases hti : t.transaction_id = i
    · simp [setTxStatusBlock, findTx, hti, hij, ih]
    · by_cases htj : t.transaction_id = j
      · simp [setTxStatusBlock, findTx, hti, htj, h]
      · simp [setTxStatusBlock, findTx, hti, htj, ih]

/-- `update_transaction` only ever writes the targeted row: lookups of any
other id are unchanged in the returned database. -/
theorem findTx_update_ne (env : UEnv) (db : List Txn) (i j : Nat)
    (s : Status) (h : j ≠ i) :
    findTx (update_transaction env db i s).1 j = findTx db j := by
  unfold update_transaction
  cases hf : findTx db i with
  | none => rfl
  | some tx =>
    by_cases h1 : tx.status = some s
    · simp [h1]
    · by_cases h2 : tx.status = some Status.confirmed
      · simp [h1, h2]
      · by_cases h3 : s = Status.confirmed
        · simp only [h1, h2, h3, if_false, if_true, ite_true, ite_false]
          split <;> (try split) <;> (try split) <;>
            exact findTx_setTxStatusBlock_ne db i j _ _ h
        · simp only [h1, h2, h3, if_false, if_true, ite_true, ite_false]
          split <;> (try split) <;> (try split) <;>
            exact findTx_setTxStatus_ne db i j _ h

/-- A successful non-`confirmed` status update records the corresponding
write effect. -/
theorem update_write_mem (env : UEnv) (db : List Txn) (i : Nat) (s : Status)
    (row : Txn) (hf : findTx db i = some row) (h1 : row.status ≠ some s)
    (h2 : row.status ≠ some Status.confirmed) (h3 : s ≠ Status.confirmed) :
    Effect.dbUpdateStatus i s ∈ (update_transaction env db i s).2 := by
  unfold update_transaction
  rw [hf]
  simp only [h1, h2, h3, if_false, ite_false, if_neg]
  split
  · simp
  · split
    · simp
    · split
      · split <;> (try split) <;> simp
      · simp

/-- Every effect of a transition to `error` is either the write of that
`error` status, a notification, or a queue dispatch; in particular no other
status is ever written by it. -/
theorem update_error_effects_shape (env : UEnv) (db : List Txn) (i : Nat) :
    ∀ e ∈ (update_transaction env db i Status.error).2,
      e = Effect.dbUpdateStatus i Status.error ∨
      (∃ a m, e = Effect.notify a m) ∨ (∃ a, e = Effect.processQueue a) := by
  intro e he
  unfold update_transaction at he
  cases hf : findTx db i with
  | none => rw [hf] at he; simp at he
  | some tx =>
    rw [hf] at he
    by_cases h1 : tx.status = some Status.error
    · simp [h1] at he
    · by_cases h2 : tx.status = some Status.confirmed
      · simp [h1, h2] at he
      · simp only [h1, h2, if_false, ite_false, if_neg] at he
        split at he <;> (try split at he) <;> (try split at he) <;>
          (try split at he) <;> simp at he <;> aesop

/-- Adding an address to `addresses_to_check` makes it a member. -/
theorem mem_addAddr_self (l : List String) (a : String) : a ∈ addAddr l a := by
  unfold addAddr
  split
  · next hc => exact List.mem_of_elem_eq_true hc
  · simp

/-- Membership is preserved by `addAddr`. -/
theorem mem_addAddr_of_mem (l : List String) (a b : String) (h : b ∈ l) :
    b ∈ addAddr l a := by
  unfold addAddr
  split
  · exact h
  · simp [h]

/-- The last element (with default) of a non-empty list is a member. -/
theorem getLastD_mem (l : List Txn) : ∀ (d : Txn), l ≠ [] → l.getLastD d ∈ l := by
  induction l with
  | nil => intro d h; exact absurd rfl h
  | cons t ts ih =>
    intro d _
    rw [List.getLastD_cons]
    cases ts with
    | nil => simp
    | cons u us => exact List.mem_cons_of_mem t (ih t (by simp))

/-- In a nonce-sorted list, the last element has the greatest nonce. -/
theorem sorted_nonce_le_getLastD (l : List Txn) :
    List.Sorted nonceLE l →
    ∀ (d t : Txn), t ∈ l → t.nonce ≤ (l.getLastD d).nonce := by
  induction l with
  | nil => intro _ d t ht; simp at ht
  | cons a ts ih =>
    intro hs d t ht
    rw [List.getLastD_cons]
    rcases List.sorted_cons.mp hs with ⟨ha, hts⟩
    rcases List.mem_cons.mp ht with rfl | htts
    · cases ts with
      | nil => simp
      | cons u us => exact ha _ (getLastD_mem (u :: us) t (by simp))
    · exact ih hts a t htts

/-- The in-flight query result is sorted by nonce (its `ORDER BY nonce`). -/
theorem fetchInflight_sorted (db : List Txn) (addr : String) (n : Int) :
    List.Sorted nonceLE (fetchInflight db addr n) := by
  unfold fetchInflight sortByNonceAsc
  exact List.sorted_insertionSort nonceLE _

/-- C10: for a transaction id with no matching row, `update_transaction`
returns silently: the database is unchanged and no write, notification or
task dispatch happens (the model is a total function, so no exception
either). -/
theorem C10_missing_row (env : UEnv) (db : List Txn) (i : Nat) (s : Status)
    (hf : findTx db i = none) :
    update_transaction env db i s = (db, []) := by
  unfold update_transaction
  rw [hf]

def uenvC10 : UEnv := { ethTxBlockNumber := fun _ => some 7, networkId := 116 }

def rowC10 : Txn :=
  { transaction_id := 2, hash := "0xh2", from_address := "0xa",
    to_address := "0xb", nonce := 0, value := 5, gas := 21000,
    gas_price := 2, data := none, v := some 1, r := some 1, s := some 1,
    status := some Status.queued, blocknumber := none }

theorem C10_witness :
    update_transaction uenvC10 [rowC10] 1 Status.error = ([rowC10], []) :=
  C10_missing_row uenvC10 [rowC10] 1 Status.error (by decide)

/-- C8: updating a row to the status it already has is a no-op: no database
write, no notification, no task dispatch. -/
theorem C8_idempotent (env : UEnv) (db : List Txn) (i : Nat) (s : Status)
    (row : Txn) (hf : findTx db i = some row) (hs : row.status = some s) :
    update_transaction env db i s = (db, []) := by
  unfold update_transaction
  rw [hf]
  simp [hs]

def uenvC8 : UEnv := { ethTxBlockNumber := fun _ => some 7, networkId := 116 }

def rowC8 : Txn :=
  { transaction_id := 1, hash := "0xh1", from_address := "0xa",
    to_address := "0xb", nonce := 3, value := 5, gas := 21000,
    gas_price := 2, data := none, v := some 1, r := some 1, s := some 1,
    status := some Status.unconfirmed, blocknumber := none }

theorem C8_witness :
    update_transaction uenvC8 [rowC8] 1 Status.unconfirmed = ([rowC8], []) :=
  C8_idempotent uenvC8 [rowC8] 1 Status.unconfirmed rowC8 (by decide) (by decide)

def uenvC3 : UEnv := { ethTxBlockNumber := fun _ => some 7, networkId := 116 }

def rowC3x : Txn :=
  { transaction_id := 1, hash := "0xh1", from_address := "0xa",
    to_address := "0xb", nonce := 3, value := 5, gas := 21000,
    gas_price := 2, data := none, v := some 1, r := some 1, s := some 1,
    status := some Status.error, blocknumber := none }

/-- C3 counterexample: a row whose status is `'error'` is NOT terminal: a
call of `update_transaction` with status `'unconfirmed'` changes the row's
status and produces effects, contradicting the claim that `'error'` never
transitions to any other value. -/
theorem C3_counterexample :
    (findTx [rowC3x] 1).map Txn.status = some (some Status.error) ∧
    (findTx (update_transaction uenvC3 [rowC3x] 1 Status.unconfirmed).1 1).map
        Txn.status = some (some Status.unconfirmed) ∧
    (update_transaction uenvC3 [rowC3x] 1 Status.unconfirmed).2 ≠ [] := by
  decide

/-- C3 (amended): only `'confirmed'` is terminal: any `update_transaction`
call on a row whose current status is `'confirmed'` is a logged no-op that
leaves the database unchanged and produces no effect.  (`'error'` rows can
transition, see the counterexample.) -/
theorem C3_confirmed_is_terminal (env : UEnv) (db : List Txn) (i : Nat)
    (s : Status) (row : Txn) (hf : findTx db i = some row)
    (hc : row.status = some Status.confirmed) :
    update_transaction env db i s = (db, []) := by
  unfold update_transaction
  rw [hf]
  by_cases h1 : row.status = some s
  · simp [h1]
  · simp [h1, hc]

def rowC3w : Txn :=
  { transaction_id := 1, hash := "0xh1", from_address := "0xa",
    to_address := "0xb", nonce := 3, value := 5, gas := 21000,
    gas_price := 2, data := none, v := some 1, r := some 1, s := some 1,
    status := some Status.confirmed, blocknumber := some 9 }

theorem C3_witness :
    update_transaction uenvC3 [rowC3w] 1 Status.error = ([rowC3w], []) :=
  C3_confirmed_is_terminal uenvC3 [rowC3w] 1 Status.error rowC3w
    (by decide) (by decide)

def uenvC2 : UEnv := { ethTxBlockNumber := fun _ => some 7, networkId := 116 }

def rowC2x : Txn :=
  { transaction_id := 1, hash := "0xh1", from_address := "0xa",
    to_address := "0xb", nonce := 3, value := 5, gas := 21000,
    gas_price := 2, data := none, v := some 1, r := some 1, s := some 1,
    status := some Status.queued, blocknumber := none }

/-- C2 counterexample: for the transition `'queued' → 'unconfirmed'` the
status IS persisted (the write effect is present) on a row whose
`to_address` is not `"0x"`, yet no `process_transaction_queue(to_address)`
dispatch happens — the function returns right after the write, contradicting
the claim that the dispatch is unconditional for every status pair. -/
theorem C2_counterexample :
    (findTx [rowC2x] 1).map Txn.status = some (some Status.queued) ∧
    rowC2x.to_address = "0xb" ∧
    Effect.dbUpdateStatus 1 Status.unconfirmed ∈
      (update_transaction uenvC2 [rowC2x] 1 Status.unconfirmed).2 ∧
    Effect.processQueue "0xb" ∉
      (update_transaction uenvC2 [rowC2x] 1 Status.unconfirmed).2 := by
  decide

/-- C2 (amended): for every successful status update (row exists, status
changes, previous status not `'confirmed'`) whose `to_address` is not
`"0x"`, `update_transaction` dispatches
`process_transaction_queue(to_address)` — for every (previous, new) pair
EXCEPT the transition `'queued' → 'unconfirmed'`, which persists the status
but suppresses the notifications and this dispatch. -/
theorem C2_amended_dispatch (env : UEnv) (db : List Txn) (i : Nat)
    (s : Status) (row : Txn) (hf : findTx db i = some row)
    (h1 : row.status ≠ some s) (h2 : row.status ≠ some Status.confirmed)
    (h3 : row.to_address ≠ "0x")
    (h4 : ¬(s = Status.unconfirmed ∧ row.status = some Status.queued)) :
    Effect.processQueue row.to_address ∈ (update_transaction env db i s).2 := by
  unfold update_transaction
  rw [hf]
  simp only [h1, h2, h3, h4, ite_false, if_false, if_neg, not_false_iff]
  split <;> (try split) <;> (try split) <;> (try split) <;> simp

def rowC2w : Txn :=
  { transaction_id := 1, hash := "0xh1", from_address := "0xa",
    to_address := "0xb", nonce := 3, value := 5, gas := 21000,
    gas_price := 2, data := none, v := some 1, r := some 1, s := some 1,
    status := some Status.unconfirmed, blocknumber := none }

theorem C2_witness :
    Effect.processQueue "0xb" ∈
      (update_transaction uenvC2 [rowC2w] 1 Status.error).2 := by
  have h := C2_amended_dispatch uenvC2 [rowC2w] 1 Status.error rowC2w
    (by decide) (by decide) (by decide) (by decide) (by decide)
  simpa using h

def uenvC9 : UEnv := { ethTxBlockNumber := fun _ => some 7, networkId := 116 }

def rowC9 : Txn :=
  { transaction_id := 1, hash := "0xh1", from_address := "0xa",
    to_address := "0xb", nonce := 3, value := 5, gas := 21000,
    gas_price := 2, data := none, v := some 1, r := some 1, s := some 1,
    status := none, blocknumber := none }

/-- C9: for a brand-new row (previous status `NULL`) with `to_address ≠
"0x"`: a transition to `'error'` writes the status, notifies only the
sender, and dispatches the recipient's queue processing; transitions to
`'queued'` or `'unconfirmed'` (both rendered as `'unconfirmed'`) notify both
sender and recipient.  The effect lists are exact, so no other notification
is sent. -/
theorem C9_new_row_notification_rules (env : UEnv) (db : List Txn) (i : Nat)
    (row : Txn) (hf : findTx db i = some row) (h0 : row.status = none)
    (h3 : row.to_address ≠ "0x") :
    (update_transaction env db i Status.error).2 =
      [Effect.dbUpdateStatus i Status.error,
       Effect.notify row.from_address (mkPayment env row Status.error),
       Effect.processQueue row.to_address]
    ∧ (update_transaction env db i Status.queued).2 =
      [Effect.dbUpdateStatus i Status.queued,
       Effect.notify row.from_address (mkPayment env row Status.unconfirmed),
       Effect.notify row.to_address (mkPayment env row Status.unconfirmed),
       Effect.processQueue row.to_address]
    ∧ (update_transaction env db i Status.unconfirmed).2 =
      [Effect.dbUpdateStatus i Status.unconfirmed,
       Effect.notify row.from_address (mkPayment env row Status.unconfirmed),
       Effect.notify row.to_address (mkPayment env row Status.unconfirmed),
       Effect.processQueue row.to_address] := by
  refine ⟨?_, ?_, ?_⟩ <;>
    (unfold update_transaction; rw [hf]; simp [h0, h3])

theorem C9_witness :
    (update_transaction uenvC9 [rowC9] 1 Status.error).2 =
      [Effect.dbUpdateStatus 1 Status.error,
       Effect.notify rowC9.from_address (mkPayment uenvC9 rowC9 Status.error),
       Effect.processQueue rowC9.to_address] :=
  (C9_new_row_notification_rules uenvC9 [rowC9] 1 rowC9
    (by decide) (by decide) (by decide)).1

/-- Decidable statement that every listed snapshot row is present in the
database with a `NULL` or `'queued'` status (the invariant the outbound
snapshot of a pass satisfies). -/
def outboundRowsOk (db : List Txn) (txs : List Txn) : Bool :=
  txs.all fun tx =>
    match findTx db tx.transaction_id with
    | some row => statusIsNullOrQueued row.status
    | none => false

theorem cascadeStep_db (env : PEnv) (st : LoopSt) (tx : Txn) :
    (cascadeStep env st tx).db =
      (update_transaction env.uenv st.db tx.transaction_id Status.error).1 :=
  rfl

theorem cascadeStep_effects (env : PEnv) (st : LoopSt) (tx : Txn) :
    (cascadeStep env st tx).effects =
      st.effects ++
        (update_transaction env.uenv st.db tx.transaction_id Status.error).2 :=
  rfl

theorem cascadeStep_previousError (env : PEnv) (st : LoopSt) (tx : Txn) :
    (cascadeStep env st tx).previousError = true :=
  rfl

/-- C6: cascade monotonicity.  Once the failure flag `previous_error` is set,
the rest of the pass transitions every remaining outbound row to `'error'`
and no remaining row to `'unconfirmed'`: the loop succeeds, the new effects
contain an `'error'` write for every remaining row, and contain no
`'unconfirmed'` write (and no blocknumber-carrying write at all). -/
theorem C6_cascade_monotonic (env : PEnv) (addr : String) :
    ∀ (txs : List Txn) (st : LoopSt), st.previousError = true →
    (txs.map Txn.transaction_id).Nodup →
    outboundRowsOk st.db txs = true →
    ∃ p, runQueueLoop env addr txs st = Except.ok p ∧
      ∃ newEffs, p.1.effects = st.effects ++ newEffs ∧
        (∀ tx ∈ txs,
          Effect.dbUpdateStatus tx.transaction_id Status.error ∈ newEffs) ∧
        (∀ i, Effect.dbUpdateStatus i Status.unconfirmed ∉ newEffs) ∧
        (∀ i s bn, Effect.dbUpdateStatusBlock i s bn ∉ newEffs) := by
  intro txs
  induction txs with
  | nil =>
    intro st hprev _ _
    refine ⟨(st, []), rfl, [], by simp, by simp, by simp, by simp⟩
  | cons tx rest ih =>
    intro st hprev hids hrows
    have hstep : runQueueLoop env addr (tx :: rest) st
        = runQueueLoop env addr rest (cascadeStep env st tx) := by
      conv_lhs => rw [runQueueLoop]
      rw [if_pos hprev]
    have hall := hrows
    simp only [outboundRowsOk, List.all_cons, Bool.and_eq_true] at hall
    obtain ⟨hhead, htail⟩ := hall
    have hrowex : ∃ row, findTx st.db tx.transaction_id = some row ∧
        statusIsNullOrQueued row.status = true := by
      cases hfind : findTx st.db tx.transaction_id with
      | none => rw [hfind] at hhead; simp at hhead
      | some row =>
        rw [hfind] at hhead
        exact ⟨row, rfl, hhead⟩
    obtain ⟨row, hfrow, hstat⟩ := hrowex
    have hner : row.status ≠ some Status.error := by
      rcases (statusIsNullOrQueued_iff _).mp hstat with h | h <;> simp [h]
    have hnc : row.status ≠ some Status.confirmed := by
      rcases (statusIsNullOrQueued_iff _).mp hstat with h | h <;> simp [h]
    have hidc : (∀ x ∈ rest, ¬x.transaction_id = tx.transaction_id) ∧
        (rest.map Txn.transaction_id).Nodup := by simpa using hids
    have hrest : outboundRowsOk (cascadeStep env st tx).db rest = true := by
      simp only [outboundRowsOk, List.all_eq_true] at htail ⊢
      intro t ht
      have hne : t.transaction_id ≠ tx.transaction_id := hidc.1 t ht
      rw [cascadeStep_db,
        findTx_update_ne env.uenv st.db tx.transaction_id t.transaction_id
          Status.error hne]
      have := htail t ht
      simpa using this
    obtain ⟨p, hrun, newEffs, heff, hmem, hnu, hnb⟩ :=
      ih (cascadeStep env st tx) (cascadeStep_previousError env st tx)
        hidc.2 hrest
    refine ⟨p, by rw [hstep]; exact hrun,
      (update_transaction env.uenv st.db tx.transaction_id Status.error).2
        ++ newEffs, ?_, ?_, ?_, ?_⟩
    · rw [heff, cascadeStep_effects, List.append_assoc]
    · intro t ht
      rcases List.mem_cons.mp ht with rfl | htr
      · exact List.mem_append_left _
          (update_write_mem env.uenv st.db t.transaction_id Status.error row
            hfrow hner hnc (by simp))
      · exact List.mem_append_right _ (hmem t htr)
    · intro i hi
      rcases List.mem_append.mp hi with hi | hi
      · rcases update_error_effects_shape env.uenv st.db tx.transaction_id
            _ hi with h | ⟨a, m, h⟩ | ⟨a, h⟩ <;> simp at h
      · exact hnu i hi
    · intro i s bn hbn
      rcases List.mem_append.mp hbn with hb | hb
      · rcases update_error_effects_shape env.uenv st.db tx.transaction_id
            _ hb with h | ⟨a, m, h⟩ | ⟨a, h⟩ <;> simp at h
      · exact hnb i s bn hb

def uenvC6 : UEnv := { ethTxBlockNumber := fun _ => none, networkId := 116 }

def envC6 : PEnv :=
  { uenv := uenvC6, lastBlocknumber := some 10,
    getBalance := fun _ _ => 50, getTransactionCount := fun _ _ => 5,
    recoverSender := fun t => t.from_address, sendRawFails := fun _ => false }

def rowC6a : Txn :=
  { transaction_id := 1, hash := "0xh1", from_address := "0xa",
    to_address := "0xb", nonce := 5, value := 1, gas := 1, gas_price := 1,
    data := none, v := some 1, r := some 1, s := some 1, status := none,
    blocknumber := none }

def rowC6b : Txn :=
  { transaction_id := 2, hash := "0xh2", from_address := "0xa",
    to_address := "0xb", nonce := 6, value := 1, gas := 1, gas_price := 1,
    data := none, v := some 1, r := some 1, s := some 1,
    status := some Status.queued, blocknumber := none }

def stC6 : LoopSt :=
  { db := [rowC6a, rowC6b], effects := [], balance := 50, nonce := 5,
    previousError := true, addressesToCheck := [] }

theorem C6_witness :
    ∃ p, runQueueLoop envC6 "0xa" [rowC6a, rowC6b] stC6 = Except.ok p ∧
      ∃ newEffs, p.1.effects = stC6.effects ++ newEffs ∧
        (∀ tx ∈ [rowC6a, rowC6b],
          Effect.dbUpdateStatus tx.transaction_id Status.error ∈ newEffs) ∧
        (∀ i, Effect.dbUpdateStatus i Status.unconfirmed ∉ newEffs) ∧
        (∀ i s bn, Effect.dbUpdateStatusBlock i s bn ∉ newEffs) :=
  C6_cascade_monotonic envC6 "0xa" [rowC6a, rowC6b] stC6 rfl
    (by decide) (by decide)

/-- C5: initial accounting of a pass with non-empty outbound.  If the
in-flight set is non-empty, the expected next nonce is one more than the
greatest in-flight nonce (the last row of the nonce-ordered query) and the
working balance is the network balance minus the summed in-flight debits;
otherwise the nonce comes from `eth_getTransactionCount` and the working
balance is the network balance. -/
theorem C5_initial_accounting (env : PEnv) (db : List Txn) (addr : String)
    (_hout : fetchOutbound db addr ≠ []) :
    (fetchInflight db addr (orZero env.lastBlocknumber) ≠ [] →
      (∃ t ∈ fetchInflight db addr (orZero env.lastBlocknumber),
        t.nonce = (initialAccounting env db addr).1 - 1) ∧
      (∀ t ∈ fetchInflight db addr (orZero env.lastBlocknumber),
        t.nonce ≤ (initialAccounting env db addr).1 - 1) ∧
      (initialAccounting env db addr).2 =
        env.getBalance addr (blockRefOf env.lastBlocknumber) -
          inflightDebit (fetchInflight db addr (orZero env.lastBlocknumber)))
    ∧ (fetchInflight db addr (orZero env.lastBlocknumber) = [] →
      initialAccounting env db addr =
        (env.getTransactionCount addr (blockRefOf env.lastBlocknumber),
         env.getBalance addr (blockRefOf env.lastBlocknumber))) := by
  constructor
  · intro hne
    have hEmpty : (fetchInflight db addr (orZero env.lastBlocknumber)).isEmpty
        = false := by
      cases h : fetchInflight db addr (orZero env.lastBlocknumber) with
      | nil => exact absurd h hne
      | cons a l => rfl
    have hacct : initialAccounting env db addr =
        (((fetchInflight db addr (orZero env.lastBlocknumber)).getLastD
            dfltTxn).nonce + 1,
         env.getBalance addr (blockRefOf env.lastBlocknumber) -
           inflightDebit (fetchInflight db addr (orZero env.lastBlocknumber)))
        := by
      unfold initialAccounting
      simp [hEmpty]
    refine ⟨⟨(fetchInflight db addr (orZero env.lastBlocknumber)).getLastD
        dfltTxn,
      getLastD_mem _ dfltTxn hne, by rw [hacct]; omega⟩, ?_, by rw [hacct]⟩
    intro t ht
    rw [hacct]
    have := sorted_nonce_le_getLastD
      (fetchInflight db addr (orZero env.lastBlocknumber))
      (fetchInflight_sorted db addr (orZero env.lastBlocknumber))
      dfltTxn t ht
    have hle : t.nonce ≤ ((fetchInflight db addr
        (orZero env.lastBlocknumber)).getLastD dfltTxn).nonce := this
    omega
  · intro he
    unfold initialAccounting
    simp [he]

def uenvC5 : UEnv := { ethTxBlockNumber := fun _ => none, networkId := 116 }

def envC5 : PEnv :=
  { uenv := uenvC5, lastBlocknumber := some 10,
    getBalance := fun _ _ => 50, getTransactionCount := fun _ _ => 2,
    recoverSender := fun t => t.from_address, sendRawFails := fun _ => false }

def rowC5out : Txn :=
  { transaction_id := 1, hash := "0xh1", from_address := "0xa",
    to_address := "0xb", nonce := 7, value := 1, gas := 1, gas_price := 1,
    data := none, v := some 1, r := some 1, s := some 1, status := none,
    blocknumber := none }

def rowC5u1 : Txn :=
  { transaction_id := 2, hash := "0xh2", from_address := "0xa",
    to_address := "0xb", nonce := 6, value := 2, gas := 3, gas_price := 1,
    data := none, v := some 1, r := some 1, s := some 1,
    status := some Status.unconfirmed, blocknumber := none }

def rowC5u2 : Txn :=
  { transaction_id := 3, hash := "0xh3", from_address := "0xa",
    to_address := "0xb", nonce := 5, value := 4, gas := 2, gas_price := 2,
    data := none, v := some 1, r := some 1, s := some 1,
    status := some Status.confirmed, blocknumber := some 12 }

def dbC5 : List Txn := [rowC5out, rowC5u1, rowC5u2]

theorem C5_witness :
    (initialAccounting envC5 dbC5 "0xa").2 =
      envC5.getBalance "0xa" (blockRefOf envC5.lastBlocknumber) -
        inflightDebit (fetchInflight dbC5 "0xa"
          (orZero envC5.lastBlocknumber)) :=
  ((C5_initial_accounting envC5 dbC5 "0xa" (by decide)).1 (by decide)).2.2

def uenvC1 : UEnv := { ethTxBlockNumber := fun _ => none, networkId := 116 }

def envC1 : PEnv :=
  { uenv := uenvC1, lastBlocknumber := some 10,
    getBalance := fun _ _ => 3, getTransactionCount := fun _ _ => 5,
    recoverSender := fun t => t.from_address, sendRawFails := fun _ => false }

def rowC1a : Txn :=
  { transaction_id := 1, hash := "0xh1", from_address := "0xa",
    to_address := "0xb", nonce := 5, value := 8, gas := 1, gas_price := 1,
    data := none, v := some 1, r := some 1, s := some 1, status := none,
    blocknumber := none }

def rowC1b : Txn :=
  { transaction_id := 2, hash := "0xh2", from_address := "0xa",
    to_address := "0xb", nonce := 6, value := 1, gas := 1, gas_price := 1,
    data := none, v := some 1, r := some 1, s := some 1, status := none,
    blocknumber := none }

def rowC1in : Txn :=
  { transaction_id := 3, hash := "0xh3", from_address := "0xc",
    to_address := "0xa", nonce := 0, value := 100, gas := 1, gas_price := 1,
    data := none, v := some 1, r := some 1, s := some 1, status := none,
    blocknumber := none }

def dbC1 : List Txn := [rowC1a, rowC1b, rowC1in]

/-- C1 counterexample: a pass over address `0xa` parks at its first outbound
row (balance 3 is below the cost 10, incoming pending value 100 covers it)
while a second outbound row remains, as witnessed by both rows receiving the
`'queued'` write of the park-branch drain; yet no
`process_transaction_queue("0xa")` task is dispatched anywhere in the pass —
the drain leaves `transactions_out` empty, so the end-of-pass remaining-items
reschedule never fires. -/
theorem C1_counterexample :
    exceptIsOk (processPass envC1 dbC1 "0xa") = true ∧
    Effect.dbUpdateStatus 1 Status.queued ∈
      passEffects (processPass envC1 dbC1 "0xa") ∧
    Effect.dbUpdateStatus 2 Status.queued ∈
      passEffects (processPass envC1 dbC1 "0xa") ∧
    Effect.processQueue "0xa" ∉ passEffects (processPass envC1 dbC1 "0xa") := by
  decide

/-- C1 (amended): the pass dispatches `process_transaction_queue(addr)` for
the processed address only through `addresses_to_check`: (a) whenever `addr`
ends up in the final `addresses_to_check` set (and is not `"0x"`), the
dispatch is among the pass effects; and (b) the park branch puts `addr` into
that set exactly when some incoming row has `blocknumber > last_block`.
Parking with remaining outbound rows does not by itself trigger a
re-dispatch, because the park branch drains `transactions_out` before the
end-of-pass remaining-items check. -/
theorem C1_amended_repark_dispatch :
    (∀ (env : PEnv) (db : List Txn) (addr : String) (res : PassResult),
      processPass env db addr = Except.ok res →
      addr ∈ res.addressesToCheck → addr ≠ "0x" →
      Effect.processQueue addr ∈ res.effects)
    ∧ (∀ (env : PEnv) (addr : String) (tx : Txn) (rest : List Txn)
        (st : LoopSt),
      st.previousError = false → tx.nonce = st.nonce →
      st.balance < txCost tx →
      txCost tx ≤ st.balance +
        pendingSum (fetchIncoming st.db addr (orZero env.lastBlocknumber)) →
      anyRecentIncoming (fetchIncoming st.db addr (orZero env.lastBlocknumber))
        env.lastBlocknumber = Except.ok true →
      ∃ p, runQueueLoop env addr (tx :: rest) st = Except.ok p ∧
        addr ∈ p.1.addressesToCheck) := by
  constructor
  · intro env db addr res h hmem hne
    unfold processPass at h
    by_cases hempty : (fetchOutbound db addr).isEmpty
    · rw [if_pos hempty] at h
      injection h with h2
      subst h2
      simp at hmem
    · rw [if_neg hempty] at h
      cases hrun : runQueueLoop env addr (fetchOutbound db addr).reverse
          { db := db, effects := [],
            balance := (initialAccounting env db addr).2,
            nonce := (initialAccounting env db addr).1,
            previousError := false, addressesToCheck := [] } with
      | error e => rw [hrun] at h; cases h
      | ok p =>
        rw [hrun] at h
        obtain ⟨st, remaining⟩ := p
        injection h with h2
        subst h2
        refine List.mem_append_of_mem_left _
          (List.mem_append_of_mem_right _ ?_)
        refine List.mem_map.mpr ⟨addr, List.mem_filter.mpr ⟨hmem, ?_⟩, rfl⟩
        simp [hne]
  · intro env addr tx rest st hprev hn hb hp hrec
    have hnn : ¬(tx.nonce ≠ st.nonce) := by simp [hn]
    have hcb : ¬(txCost tx ≤ st.balance) := by omega
    have hpb : ¬(st.balance +
        pendingSum (fetchIncoming st.db addr (orZero env.lastBlocknumber))
          < txCost tx) := by omega
    refine ⟨({ db :=
                 (drainQueuedRows env.uenv st.db st.effects (tx :: rest)).1,
               effects :=
                 (drainQueuedRows env.uenv st.db st.effects (tx :: rest)).2,
               balance := st.balance, nonce := st.nonce,
               previousError := st.previousError,
               addressesToCheck := addAddr st.addressesToCheck addr },
      []), ?_, ?_⟩
    · conv_lhs => rw [runQueueLoop]
      rw [if_neg (by simp [hprev]), if_neg hnn, if_neg hcb, if_neg hpb, hrec]
      rfl
    · exact mem_addAddr_self st.addressesToCheck addr

def uenvC1w : UEnv := { ethTxBlockNumber := fun _ => none, networkId := 116 }

def envC1w : PEnv :=
  { uenv := uenvC1w, lastBlocknumber := some 10,
    getBalance := fun _ _ => 0, getTransactionCount := fun _ _ => 5,
    recoverSender := fun t => t.from_address, sendRawFails := fun _ => false }

def rowC1w : Txn :=
  { transaction_id := 1, hash := "0xh1", from_address := "0xa",
    to_address := "0xb", nonce := 5, value := 10, gas := 0, gas_price := 0,
    data := none, v := some 1, r := some 1, s := some 1, status := none,
    blocknumber := none }

def rowC1win : Txn :=
  { transaction_id := 2, hash := "0xh2", from_address := "0xc",
    to_address := "0xa", nonce := 0, value := 100, gas := 1, gas_price := 1,
    data := none, v := some 1, r := some 1, s := some 1,
    status := some Status.confirmed, blocknumber := some 20 }

def stC1w : LoopSt :=
  { db := [rowC1w, rowC1win], effects := [], balance := 0, nonce := 5,
    previousError := false, addressesToCheck := [] }

theorem C1_witness :
    ∃ p, runQueueLoop envC1w "0xa" [rowC1w] stC1w = Except.ok p ∧
      "0xa" ∈ p.1.addressesToCheck :=
  C1_amended_repark_dispatch.2 envC1w "0xa" rowC1w [] stC1w rfl (by decide)
    (by decide) (by decide) rfl

def uenvC4 : UEnv := { ethTxBlockNumber := fun _ => none, networkId := 116 }

def envC4 : PEnv :=
  { uenv := uenvC4, lastBlocknumber := none,
    getBalance := fun _ _ => 3, getTransactionCount := fun _ _ => 0,
    recoverSender := fun t => t.from_address, sendRawFails := fun _ => false }

def rowC4out : Txn :=
  { transaction_id := 1, hash := "0xh1", from_address := "0xa",
    to_address := "0xb", nonce := 0, value := 8, gas := 1, gas_price := 1,
    data := none, v := some 1, r := some 1, s := some 1, status := none,
    blocknumber := none }

def rowC4in : Txn :=
  { transaction_id := 2, hash := "0xh2", from_address := "0xc",
    to_address := "0xa", nonce := 0, value := 100, gas := 1, gas_price := 1,
    data := none, v := some 1, r := some 1, s := some 1,
    status := some Status.confirmed, blocknumber := some 5 }

def dbC4 : List Txn := [rowC4out, rowC4in]

/-- C4: when `last_blocknumber` is NULL the SQL range predicates do use `0`
and the RPC block argument does use `"latest"`, but the in-Python
incoming-funds check of the park branch compares `t['blocknumber'] >
last_blocknumber` against the raw NULL: with an incoming confirmed row
(blocknumber 5) funding the parked transaction, the pass raises `TypeError`
instead of completing — the claim fails on this, the code's own `or 0`
pattern two lines earlier marks it as a slip. -/
theorem C4_null_lastblock_raises :
    processPass envC4 dbC4 "0xa" = Except.error PyErr.typeError := by
  rfl
